import Mathlib

/-!
Verification development for the opportunity-scanning engine of the
investment bot (source: investment_bot.py).

Embedding conventions:
* Python/pandas float values are modelled by exact rationals; NaN and the
  infinities produced by float arithmetic (for example division by zero in
  the RSI computation, or indicators whose rolling window is not yet
  populated) are modelled explicitly by the type FV with IEEE-style
  propagation and comparison semantics (every comparison involving NaN is
  false).
* The float square root used by the Bollinger band standard deviation is
  modelled by Rat.sqrt; it agrees with the float computation exactly on
  perfect squares, which covers every concrete series evaluated below.
* Fallible effects (the yfinance fetch, or any exception raised while
  analysing one symbol, which the per-symbol try/except turns into a skip)
  are modelled by an Option-valued fetch function.
* Mutable module state (the global current_opportunities cache) is passed
  explicitly: update_opportunities returns the pair (returned list, new
  cache value).
-/

/-- Extended float value: a rational number, NaN, or a signed infinity.
Models the IEEE behaviour of the pandas float columns. -/
inductive FV where
  | nan : FV
  | inf : FV
  | ninf : FV
  | num : ℚ → FV
deriving DecidableEq

/-- IEEE-style addition on extended values. -/
def FV.add : FV → FV → FV
  | FV.num a, FV.num b => FV.num (a + b)
  | FV.nan, _ => FV.nan
  | _, FV.nan => FV.nan
  | FV.inf, FV.ninf => FV.nan
  | FV.ninf, FV.inf => FV.nan
  | FV.inf, _ => FV.inf
  | _, FV.inf => FV.inf
  | FV.ninf, _ => FV.ninf
  | _, FV.ninf => FV.ninf

/-- IEEE-style subtraction on extended values. -/
def FV.sub : FV → FV → FV
  | FV.num a, FV.num b => FV.num (a - b)
  | FV.nan, _ => FV.nan
  | _, FV.nan => FV.nan
  | FV.inf, FV.inf => FV.nan
  | FV.ninf, FV.ninf => FV.nan
  | FV.inf, _ => FV.inf
  | FV.ninf, _ => FV.ninf
  | _, FV.inf => FV.ninf
  | _, FV.ninf => FV.inf

/-- IEEE-style multiplication on extended values. -/
def FV.mul : FV → FV → FV
  | FV.num a, FV.num b => FV.num (a * b)
  | FV.nan, _ => FV.nan
  | _, FV.nan => FV.nan
  | FV.inf, FV.inf => FV.inf
  | FV.inf, FV.ninf => FV.ninf
  | FV.ninf, FV.inf => FV.ninf
  | FV.ninf, FV.ninf => FV.inf
  | FV.inf, FV.num b => if b = 0 then FV.nan else if 0 < b then FV.inf else FV.ninf
  | FV.num a, FV.inf => if a = 0 then FV.nan else if 0 < a then FV.inf else FV.ninf
  | FV.ninf, FV.num b => if b = 0 then FV.nan else if 0 < b then FV.ninf else FV.inf
  | FV.num a, FV.ninf => if a = 0 then FV.nan else if 0 < a then FV.ninf else FV.inf

/-- IEEE-style division on extended values; a nonzero number divided by zero
gives a signed infinity and 0/0 gives NaN, exactly as float division in
numpy/pandas behaves in the RSI computation. -/
def FV.div : FV → FV → FV
  | FV.num a, FV.num b =>
      if b = 0 then (if a = 0 then FV.nan else if 0 < a then FV.inf else FV.ninf)
      else FV.num (a / b)
  | FV.nan, _ => FV.nan
  | _, FV.nan => FV.nan
  | FV.inf, FV.inf => FV.nan
  | FV.inf, FV.ninf => FV.nan
  | FV.ninf, FV.inf => FV.nan
  | FV.ninf, FV.ninf => FV.nan
  | FV.inf, FV.num b => if 0 ≤ b then FV.inf else FV.ninf
  | FV.ninf, FV.num b => if 0 ≤ b then FV.ninf else FV.inf
  | FV.num _, FV.inf => FV.num 0
  | FV.num _, FV.ninf => FV.num 0

/-- Strict less-than on extended values; false whenever either side is NaN,
exactly as float comparisons behave in Python. -/
def FV.blt : FV → FV → Bool
  | FV.num a, FV.num b => decide (a < b)
  | FV.nan, _ => false
  | _, FV.nan => false
  | FV.ninf, FV.ninf => false
  | FV.ninf, _ => true
  | _, FV.ninf => false
  | FV.inf, _ => false
  | FV.num _, FV.inf => true

/-- Non-strict comparison on extended values; false whenever either side is
NaN. -/
def FV.ble : FV → FV → Bool
  | FV.num a, FV.num b => decide (a ≤ b)
  | FV.nan, _ => false
  | _, FV.nan => false
  | FV.ninf, _ => true
  | _, FV.ninf => false
  | _, FV.inf => true
  | FV.inf, FV.num _ => false

/-- Round-half-to-even to an integer, the tie-breaking rule of the Python
built-in round. -/
def roundHalfEven (x : ℚ) : ℤ :=
  let f := Int.floor x
  if x - f < 1/2 then f
  else if 1/2 < x - f then f + 1
  else if f % 2 = 0 then f else f + 1

/-- Python round(x, digits): round-half-to-even at the given number of
decimal digits. -/
def roundTo (digits : ℕ) (x : ℚ) : ℚ :=
  (roundHalfEven (x * 10 ^ digits) : ℚ) / 10 ^ digits

/-- Rounding lifted to extended values (Python round propagates NaN). -/
def FV.roundFV (digits : ℕ) : FV → FV
  | FV.num q => FV.num (roundTo digits q)
  | v => v

/-- Simple moving average over a trailing window, as produced by
Close.rolling(window=w).mean(): NaN until the window is fully populated. -/
def smaAt (w : ℕ) (xs : List ℚ) (i : ℕ) : FV :=
  if w ≤ i + 1 ∧ i < xs.length then
    FV.num ((((xs.drop (i + 1 - w)).take w).sum) / w)
  else FV.nan

/-- Sample standard deviation (pandas rolling std, ddof = 1) over a trailing
window; the float square root is modelled by Rat.sqrt (exact on perfect
squares). NaN until the window is fully populated. -/
def stdAt (w : ℕ) (xs : List ℚ) (i : ℕ) : FV :=
  if w ≤ i + 1 ∧ i < xs.length then
    let win := (xs.drop (i + 1 - w)).take w
    let m := win.sum / w
    FV.num (Rat.sqrt (((win.map (fun x => (x - m) ^ 2)).sum) / ((w : ℚ) - 1)))
  else FV.nan

/-- Day-over-day gain term of the RSI computation: delta.where(delta > 0, 0).
The NaN produced by diff() at bar 0 compares false against 0 and is therefore
replaced by 0 by the where call, exactly as in pandas. -/
def gainAt (closes : List ℚ) (t : ℕ) : ℚ :=
  if t = 0 then 0
  else if 0 < closes.getD t 0 - closes.getD (t - 1) 0
  then closes.getD t 0 - closes.getD (t - 1) 0
  else 0

/-- Day-over-day loss term of the RSI computation: -delta.where(delta < 0, 0),
with the negation pushed into the branches. -/
def lossAt (closes : List ℚ) (t : ℕ) : ℚ :=
  if t = 0 then 0
  else if closes.getD t 0 - closes.getD (t - 1) 0 < 0
  then -(closes.getD t 0 - closes.getD (t - 1) 0)
  else 0

/-- Average gain over the trailing 14-bar window (gain.rolling(14).mean()). -/
def avgGain (closes : List ℚ) (i : ℕ) : ℚ :=
  (((List.range 14).map (fun k => gainAt closes (i - 13 + k))).sum) / 14

/-- Average loss over the trailing 14-bar window (loss.rolling(14).mean()). -/
def avgLoss (closes : List ℚ) (i : ℕ) : ℚ :=
  (((List.range 14).map (fun k => lossAt closes (i - 13 + k))).sum) / 14

/-- RSI at bar i: 100 - 100/(1 + gain/loss) computed with the IEEE
propagation of FV, so a zero average loss with positive average gain gives
exactly 100 through the intermediate infinity, and 0/0 gives NaN.
NaN until the 14-bar window of deltas is populated. -/
def rsiAt (closes : List ℚ) (i : ℕ) : FV :=
  if 13 ≤ i ∧ i < closes.length then
    FV.sub (FV.num 100)
      (FV.div (FV.num 100)
        (FV.add (FV.num 1) (FV.div (FV.num (avgGain closes i)) (FV.num (avgLoss closes i)))))
  else FV.nan

/-- Exponential moving average with adjust=False: seeded by the first value,
recurrence y = a*x + (1-a)*y. Returns the whole series (one value per bar). -/
def emaFrom (a : ℚ) (cur : ℚ) : List ℚ → List ℚ
  | [] => [cur]
  | x :: xs => cur :: emaFrom a (a * x + (1 - a) * cur) xs

/-- Series of EMA values for a given smoothing weight a = 2/(span+1). -/
def emaSeries (a : ℚ) : List ℚ → List ℚ
  | [] => []
  | x :: xs => emaFrom a x xs

/-- MACD series: EMA12 - EMA26 (span 12 gives a = 2/13, span 26 gives 2/27). -/
def macdSeries (closes : List ℚ) : List ℚ :=
  List.zipWith (fun p q => p - q) (emaSeries (2/13) closes) (emaSeries (2/27) closes)

/-- MACD signal line: EMA9 of the MACD series (span 9 gives a = 1/5). -/
def signalSeries (closes : List ℚ) : List ℚ :=
  emaSeries (1/5) (macdSeries closes)

/-- MACD value at bar i. -/
def macdAt (closes : List ℚ) (i : ℕ) : ℚ := (macdSeries closes).getD i 0

/-- MACD signal-line value at bar i. -/
def signalAt (closes : List ℚ) (i : ℕ) : ℚ := (signalSeries closes).getD i 0

/-- Upper Bollinger band: BB_middle + 2 * BB_std. -/
def bbUpperAt (xs : List ℚ) (i : ℕ) : FV :=
  FV.add (smaAt 20 xs i) (FV.mul (FV.num 2) (stdAt 20 xs i))

/-- Lower Bollinger band: BB_middle - 2 * BB_std. -/
def bbLowerAt (xs : List ℚ) (i : ℕ) : FV :=
  FV.sub (smaAt 20 xs i) (FV.mul (FV.num 2) (stdAt 20 xs i))

/-- Maximum of the trailing 14-bar window of highs (High.rolling(14).max()). -/
def windowMax (xs : List ℚ) (t : ℕ) : ℚ :=
  ((xs.drop (t - 13)).take 14).foldl max (xs.getD (t - 13) 0)

/-- Minimum of the trailing 14-bar window of lows (Low.rolling(14).min()). -/
def windowMin (xs : List ℚ) (t : ℕ) : ℚ :=
  ((xs.drop (t - 13)).take 14).foldl min (xs.getD (t - 13) 0)

/-- The defined entries of the ATR proxy series
High.rolling(14).max() - Low.rolling(14).min(): the first 13 bars are NaN and
are skipped by the pandas mean, so only bars from 13 on contribute. -/
def atrList (highs lows : List ℚ) : List ℚ :=
  (List.range highs.length).filterMap (fun t =>
    if 13 ≤ t then some (windowMax highs t - windowMin lows t) else none)

/-- Trade direction of a fused signal ("BUY" / "SELL" in the source). -/
inductive Dir where
  | buy : Dir
  | sell : Dir
deriving DecidableEq

/-- Per-symbol market data as fetched for one scan pass: the aligned OHLCV
columns actually read by the analysis (Open is never used), the short name
from the quote info, and the live price field of the quote info (none when
the provider returns no usable currentPrice, including the NaN case). -/
structure StockData where
  closes : List ℚ
  highs : List ℚ
  lows : List ℚ
  volumes : List ℚ
  name : String
  currentPrice : Option ℚ
deriving DecidableEq

/-- Effective current price: info currentPrice with fallback to the last
close when it is missing, zero (falsy) or NaN. -/
def effectivePrice (d : StockData) : ℚ :=
  match d.currentPrice with
  | some p => if p = 0 then d.closes.getLastD 0 else p
  | none => d.closes.getLastD 0

/-- Strategy 1 kernel, lines 144-145 of the source: golden cross fires when
previous SMA20 < previous SMA50 and current SMA20 > current SMA50. -/
def golden_cross (pS20 pS50 cS20 cS50 : FV) : Bool :=
  FV.blt pS20 pS50 && FV.blt cS50 cS20

/-- Strategy 1 evaluated on a data set (current = last bar, previous = the
bar before it). -/
def goldenCrossB (d : StockData) : Bool :=
  golden_cross (smaAt 20 d.closes (d.closes.length - 2)) (smaAt 50 d.closes (d.closes.length - 2))
    (smaAt 20 d.closes (d.closes.length - 1)) (smaAt 50 d.closes (d.closes.length - 1))

/-- Strategy 2: RSI bounce, previous RSI < 30 and current RSI > 30. -/
def rsiBounceB (d : StockData) : Bool :=
  FV.blt (rsiAt d.closes (d.closes.length - 2)) (FV.num 30) &&
    FV.blt (FV.num 30) (rsiAt d.closes (d.closes.length - 1))

/-- Strategy 3: MACD crosses above its signal line. -/
def macdCrossB (d : StockData) : Bool :=
  decide (macdAt d.closes (d.closes.length - 2) < signalAt d.closes (d.closes.length - 2)) &&
    decide (signalAt d.closes (d.closes.length - 1) < macdAt d.closes (d.closes.length - 1))

/-- Strategy 4: Bollinger bounce, previous close at or below the previous
lower band and current close above the current lower band. -/
def bbBounceB (d : StockData) : Bool :=
  FV.ble (FV.num (d.closes.getD (d.closes.length - 2) 0)) (bbLowerAt d.closes (d.closes.length - 2)) &&
    FV.blt (bbLowerAt d.closes (d.closes.length - 1)) (FV.num (d.closes.getD (d.closes.length - 1) 0))

/-- Strategy 5: death cross, previous SMA50 > previous SMA200 and current
SMA50 < current SMA200. -/
def deathCrossB (d : StockData) : Bool :=
  FV.blt (smaAt 200 d.closes (d.closes.length - 2)) (smaAt 50 d.closes (d.closes.length - 2)) &&
    FV.blt (smaAt 50 d.closes (d.closes.length - 1)) (smaAt 200 d.closes (d.closes.length - 1))

/-- Strategy 6: RSI overbought, current RSI > 70. -/
def rsiOverboughtB (d : StockData) : Bool :=
  FV.blt (FV.num 70) (rsiAt d.closes (d.closes.length - 1))

/-- Strategy 7: MACD crosses below its signal line. -/
def macdCrossDownB (d : StockData) : Bool :=
  decide (signalAt d.closes (d.closes.length - 2) < macdAt d.closes (d.closes.length - 2)) &&
    decide (macdAt d.closes (d.closes.length - 1) < signalAt d.closes (d.closes.length - 1))

/-- Strategy 8 first conjunct: current close above the upper Bollinger band. -/
def bbBreakoutB (d : StockData) : Bool :=
  FV.blt (bbUpperAt d.closes (d.closes.length - 1)) (FV.num (d.closes.getD (d.closes.length - 1) 0))

/-- Strategy 8 as gated in the source: breakout together with RSI > 65. -/
def bbBreakoutHighRsiB (d : StockData) : Bool :=
  bbBreakoutB d && FV.blt (FV.num 65) (rsiAt d.closes (d.closes.length - 1))

/-- Signal fusion over the eight primary strategy booleans, mirroring the
sequential if-chain of lines 168-218: BUY strategies first, then SELL
strategies; each fired strategy adds its weight to the confidence, and the
SELL strategies may overwrite a previously set BUY direction. -/
def fusePrimary (gc rb mc bb dc ro md bk : Bool) : Option Dir × ℕ :=
  let s0 : Option Dir × ℕ := (none, 0)
  let s1 := if gc then (some Dir.buy, s0.2 + 30) else s0
  let s2 := if rb then (some Dir.buy, s1.2 + 25) else s1
  let s3 := if mc then ((if s2.1 = some Dir.buy then s2.1 else some Dir.buy), s2.2 + 25) else s2
  let s4 := if bb then ((if s3.1 = some Dir.buy then s3.1 else some Dir.buy), s3.2 + 20) else s3
  let s5 := if dc then (some Dir.sell, s4.2 + 30) else s4
  let s6 := if ro then ((if s5.1 = some Dir.sell then s5.1 else some Dir.sell), s5.2 + 25) else s5
  let s7 := if md then ((if s6.1 = some Dir.sell then s6.1 else some Dir.sell), s6.2 + 25) else s6
  if bk then ((if s7.1 = some Dir.sell then s7.1 else some Dir.sell), s7.2 + 20) else s7

/-- Confirmation bonus: current close above SMA20. -/
def closeAboveSma20B (d : StockData) : Bool :=
  FV.blt (smaAt 20 d.closes (d.closes.length - 1)) (FV.num (d.closes.getD (d.closes.length - 1) 0))

/-- Confirmation bonus: current SMA20 above SMA50. -/
def sma20AboveSma50B (d : StockData) : Bool :=
  FV.blt (smaAt 50 d.closes (d.closes.length - 1)) (smaAt 20 d.closes (d.closes.length - 1))

/-- Confirmation bonus: current volume above 1.5 times its 20-bar average. -/
def volumeHighB (d : StockData) : Bool :=
  FV.blt (FV.mul (smaAt 20 d.volumes (d.volumes.length - 1)) (FV.num (3/2)))
    (FV.num (d.volumes.getD (d.volumes.length - 1) 0))

/-- Confirmation bonus: current close below SMA20. -/
def closeBelowSma20B (d : StockData) : Bool :=
  FV.blt (FV.num (d.closes.getD (d.closes.length - 1) 0)) (smaAt 20 d.closes (d.closes.length - 1))

/-- Confirmation bonus: current SMA20 below SMA50. -/
def sma20BelowSma50B (d : StockData) : Bool :=
  FV.blt (smaAt 20 d.closes (d.closes.length - 1)) (smaAt 50 d.closes (d.closes.length - 1))

/-- Direction-conditional confirmation bonuses of lines 220-245: +10 for
price position, +10 for trend alignment, +15 for elevated volume. -/
def addConfirmations (s : Option Dir) (c : ℕ)
    (cAbove s2050 vol cBelow s5020 : Bool) : ℕ :=
  match s with
  | some Dir.buy =>
      c + (if cAbove then 10 else 0) + (if s2050 then 10 else 0) + (if vol then 15 else 0)
  | some Dir.sell =>
      c + (if cBelow then 10 else 0) + (if s5020 then 10 else 0) + (if vol then 15 else 0)
  | none => c

/-- Primary fusion applied to the eight strategy booleans of one data set. -/
def fusedPrimary (d : StockData) : Option Dir × ℕ :=
  fusePrimary (goldenCrossB d) (rsiBounceB d) (macdCrossB d) (bbBounceB d)
    (deathCrossB d) (rsiOverboughtB d) (macdCrossDownB d) (bbBreakoutHighRsiB d)

/-- Fused signal for one symbol: primary strategies then confirmations. -/
def analyzeSignal (d : StockData) : Option Dir × ℕ :=
  ((fusedPrimary d).1,
    addConfirmations (fusedPrimary d).1 (fusedPrimary d).2 (closeAboveSma20B d)
      (sma20AboveSma50B d) (volumeHighB d) (closeBelowSma20B d) (sma20BelowSma50B d))

/-- ATR-derived volatility fraction: mean of the defined ATR entries divided
by the current price. -/
def avgAtrFrac (d : StockData) : ℚ :=
  ((atrList d.highs d.lows).sum / ((atrList d.highs d.lows).length : ℚ)) / effectivePrice d

/-- Target price: price +2 ATR for BUY, -2 ATR for SELL. -/
def targetPrice (dir : Dir) (price a : ℚ) : ℚ :=
  match dir with
  | Dir.buy => price * (1 + 2 * a)
  | Dir.sell => price * (1 - 2 * a)

/-- Stop loss: price -1 ATR for BUY, +1 ATR for SELL. -/
def stopLoss (dir : Dir) (price a : ℚ) : ℚ :=
  match dir with
  | Dir.buy => price * (1 - 1 * a)
  | Dir.sell => price * (1 + 1 * a)

/-- Risk of the proposed trade. -/
def riskOf (dir : Dir) (price a : ℚ) : ℚ :=
  match dir with
  | Dir.buy => price - stopLoss dir price a
  | Dir.sell => stopLoss dir price a - price

/-- Reward of the proposed trade. -/
def rewardOf (dir : Dir) (price a : ℚ) : ℚ :=
  match dir with
  | Dir.buy => targetPrice dir price a - price
  | Dir.sell => price - targetPrice dir price a

/-- Risk/reward ratio, rounded to one decimal; 0 when the risk is not
positive. -/
def riskReward (dir : Dir) (price a : ℚ) : ℚ :=
  if 0 < riskOf dir price a then roundTo 1 (rewardOf dir price a / riskOf dir price a) else 0

/-- An accepted opportunity, with the fields built at lines 281-300. -/
structure Opp where
  symbol : String
  name : String
  signal : Dir
  price : ℚ
  target_price : ℚ
  stop_loss : ℚ
  risk_reward : ℚ
  confidence : ℕ
  units : ℚ
  potential_profit : ℚ
  max_loss : ℚ
  rsi : FV
  macd : ℚ
  macd_signal : ℚ
deriving DecidableEq

/-- Build the opportunity record for a symbol that passed both gates. -/
def mkOpportunity (symbol : String) (d : StockData) (dir : Dir) (conf : ℕ) : Opp :=
  let price := effectivePrice d
  let a := avgAtrFrac d
  let u := roundTo 4 (100 / price)
  { symbol := symbol
    name := d.name
    signal := dir
    price := roundTo 2 price
    target_price := roundTo 2 (targetPrice dir price a)
    stop_loss := roundTo 2 (stopLoss dir price a)
    risk_reward := riskReward dir price a
    confidence := conf
    units := u
    potential_profit := roundTo 2 (u * |targetPrice dir price a - price|)
    max_loss := roundTo 2 (u * |price - stopLoss dir price a|)
    rsi := FV.roundFV 2 (rsiAt d.closes (d.closes.length - 1))
    macd := roundTo 4 (macdAt d.closes (d.closes.length - 1))
    macd_signal := roundTo 4 (signalAt d.closes (d.closes.length - 1)) }

/-- Per-symbol analysis, lines 102-300: skip when fewer than 30 bars, fuse
the signals, and accept only when a direction is set, the confidence reaches
60 and the risk/reward ratio reaches 1.5. -/
def analyze (symbol : String) (d : StockData) : Option Opp :=
  if d.closes.length < 30 then none
  else
    match analyzeSignal d with
    | (none, _) => none
    | (some dir, conf) =>
      if 60 ≤ conf then
        if (3 : ℚ)/2 ≤ riskReward dir (effectivePrice d) (avgAtrFrac d) then
          some (mkOpportunity symbol d dir conf)
        else none
      else none

/-- The default curated symbol list of the source. -/
def DEFAULT_SYMBOLS : List String :=
  ["AAPL", "MSFT", "AMZN", "NVDA", "GOOGL", "META", "TSLA",
   "JPM", "V", "PG", "JNJ", "WMT", "BAC", "DIS", "NFLX", "PYPL", "ADBE", "CRM",
   "COST", "AMD", "INTC", "XOM", "CVX", "PFE", "KO", "MRK", "HD", "UNH",
   "SPY", "QQQ", "DIA", "IWM", "VTI", "VEA", "VWO", "VOO", "VNQ",
   "GLD", "SLV", "USO", "UNG",
   "BABA", "TSM", "SONY", "TM", "HSBC", "BP", "GSK"]

/-- The default-append loop of lines 86-89: walk the default list in order
and append each symbol not already present. -/
def addDefaults (symbols : List String) : List String :=
  DEFAULT_SYMBOLS.foldl (fun acc s => if s ∈ acc then acc else acc ++ [s]) symbols

/-- Watchlist part of the symbol universe, lines 80-82: the watchlist of a
truthy user id when it is present and nonempty, otherwise empty. -/
def watchPart (userId : Option ℕ) (watchlists : ℕ → List String) : List String :=
  match userId with
  | some uid => if uid ≠ 0 ∧ watchlists uid ≠ [] then watchlists uid else []
  | none => []

/-- The symbol universe of one scan pass, lines 77-89: the watchlist part,
then, only when fewer than 50 symbols were collected or no user id was
given, the default symbols not already present. -/
def buildSymbols (userId : Option ℕ) (watchlists : ℕ → List String) : List String :=
  if (watchPart userId watchlists).length < 50 ∨ userId = none
  then addDefaults (watchPart userId watchlists)
  else watchPart userId watchlists

/-- The per-symbol loop of lines 95-304: any fetch or analysis failure for a
symbol (modelled by the Option-valued fetch) skips that symbol only. -/
def collectOpportunities (fetch : String → Option StockData) (symbols : List String) : List Opp :=
  symbols.filterMap (fun s => (fetch s).bind (analyze s))

/-- Ranking order used at line 307: descending by confidence, with
risk/reward as tiebreak. -/
def oppBefore (a b : Opp) : Prop :=
  b.confidence < a.confidence ∨ (b.confidence = a.confidence ∧ b.risk_reward ≤ a.risk_reward)

instance oppBefore.decRel : DecidableRel oppBefore :=
  fun a b => by unfold oppBefore; exact inferInstance

instance oppBefore.isTotal : IsTotal Opp oppBefore where
  total a b := by
    rcases Nat.lt_trichotomy a.confidence b.confidence with h | h | h
    · exact Or.inr (Or.inl h)
    · rcases le_total a.risk_reward b.risk_reward with hr | hr
      · exact Or.inr (Or.inr ⟨h, hr⟩)
      · exact Or.inl (Or.inr ⟨h.symm, hr⟩)
    · exact Or.inl (Or.inl h)

instance oppBefore.isTrans : IsTrans Opp oppBefore where
  trans a b c hab hbc := by
    rcases hab with h1 | ⟨h1, h1r⟩ <;> rcases hbc with h2 | ⟨h2, h2r⟩
    · exact Or.inl (h2.trans h1)
    · exact Or.inl (h2 ▸ h1)
    · exact Or.inl (h1 ▸ h2)
    · exact Or.inr ⟨h2.trans h1, h2r.trans h1r⟩

/-- The scanner, lines 75-310: build the universe, collect the accepted
opportunities, sort them descending by (confidence, risk/reward) with a
stable sort, and keep the top 10. -/
def scan_for_opportunities (fetch : String → Option StockData)
    (watchlists : ℕ → List String) (userId : Option ℕ) : List Opp :=
  (List.insertionSort oppBefore (collectOpportunities fetch (buildSymbols userId watchlists))).take 10

/-- Lines 313-322: with a truthy user id, return that user's scoped scan and
leave the cache alone; otherwise overwrite the cache wholesale. The result
is (returned list, new value of current_opportunities). -/
def update_opportunities (fetch : String → Option StockData)
    (watchlists : ℕ → List String) (current_opportunities : List Opp)
    (userId : Option ℕ) : List Opp × List Opp :=
  match userId with
  | some uid =>
      if uid ≠ 0 then (scan_for_opportunities fetch watchlists (some uid), current_opportunities)
      else
        (scan_for_opportunities fetch watchlists none, scan_for_opportunities fetch watchlists none)
  | none =>
      (scan_for_opportunities fetch watchlists none, scan_for_opportunities fetch watchlists none)

/-- Per-user alert preferences (lazily created with defaults true/60/1.5). -/
structure Prefs where
  daily_alerts : Bool
  min_confidence : ℕ
  min_risk_reward : ℚ
deriving DecidableEq

/-- The per-subscriber selection of broadcast_opportunities, lines 962-996:
skip users with alerts disabled, filter the shared list by the user's
minimum confidence (default 60 when the user has no stored preferences) and
deliver the first surviving opportunity, if any. -/
def broadcast_selection (opps : List Opp) : Option Prefs → Option Opp
  | some p =>
      if p.daily_alerts = false then none
      else (opps.filter (fun op => decide (p.min_confidence ≤ op.confidence))).head?
  | none => (opps.filter (fun op => decide (60 ≤ op.confidence))).head?

/-- Synthetic 120-bar series: flat at 100 with a one-day spike to 200 at bar
69 and a step up to 101 from bar 99 on. The spike leaving the 50-bar window
drags SMA50 down through the flat SMA20 at the last bar, so the golden cross
fires there while every other primary strategy stays silent. -/
def closes120 : List ℚ :=
  List.replicate 69 100 ++ [200] ++ List.replicate 29 100 ++ List.replicate 21 101

/-- The 120-bar golden-cross-only data set used against claim C5. -/
def dataC5 : StockData :=
  { closes := closes120, highs := closes120, lows := closes120,
    volumes := List.replicate 120 1000, name := "Apple Inc.", currentPrice := none }

/-- Synthetic 55-bar series with the same golden-cross construction and a
final close of 102 on five-fold volume; the jump also drives RSI to 100, so
several strategies fire and the symbol is accepted with high confidence. -/
def closes55 : List ℚ :=
  List.replicate 4 100 ++ [200] ++ List.replicate 29 100 ++ List.replicate 20 101 ++ [102]

/-- The 55-bar data set whose scan produces an accepted opportunity. -/
def dataW : StockData :=
  { closes := closes55, highs := closes55, lows := closes55,
    volumes := List.replicate 54 1000 ++ [5000], name := "Apple Inc.", currentPrice := none }

/-- Fetch function for the witness scans: data only for AAPL. -/
def fetchW : String → Option StockData :=
  fun s => if s = "AAPL" then some dataW else none

/-- Fifteen closes alternating up 2, down 1, giving a well-defined RSI. -/
def closesC3 : List ℚ :=
  [100, 102, 101, 103, 102, 104, 103, 105, 104, 106, 105, 107, 106, 108, 107]

/-- A 50-symbol watchlist, at the threshold where the scanner stops adding
the default symbols. -/
def watchlist50 : List String :=
  ["S01", "S02", "S03", "S04", "S05", "S06", "S07", "S08", "S09", "S10",
   "S11", "S12", "S13", "S14", "S15", "S16", "S17", "S18", "S19", "S20",
   "S21", "S22", "S23", "S24", "S25", "S26", "S27", "S28", "S29", "S30",
   "S31", "S32", "S33", "S34", "S35", "S36", "S37", "S38", "S39", "S40",
   "S41", "S42", "S43", "S44", "S45", "S46", "S47", "S48", "S49", "S50"]

/-- Placeholder opportunity used as the default of headD. -/
def dummyOpp : Opp :=
  { symbol := "", name := "", signal := Dir.buy, price := 0, target_price := 0,
    stop_loss := 0, risk_reward := 0, confidence := 0, units := 0,
    potential_profit := 0, max_loss := 0, rsi := FV.nan, macd := 0, macd_signal := 0 }

/-- Concrete opportunity with confidence 65, used for the broadcast example. -/
def opp65 : Opp :=
  { symbol := "AAPL", name := "Apple Inc.", signal := Dir.buy, price := 101,
    target_price := 127, stop_loss := 88, risk_reward := 2, confidence := 65,
    units := 1, potential_profit := 26, max_loss := 13, rsi := FV.num 50,
    macd := 0, macd_signal := 0 }

/-- The single opportunity produced by scanning fetchW over the default
universe (field values obtained by evaluating the pipeline on dataW). -/
def oppW : Opp :=
  { symbol := "AAPL", name := "Apple Inc.", signal := Dir.sell, price := 102,
    target_price := 1938/25, stop_loss := 2856/25, risk_reward := 2, confidence := 110,
    units := 2451/2500, potential_profit := 24, max_loss := 12, rsi := FV.num 100,
    macd := 471/5000, macd_signal := -11/10000 }

set_option maxRecDepth 20000

/-- Helper: the scan of the witness fetch function evaluates to exactly one
accepted opportunity. -/
theorem scanW_eq : scan_for_opportunities fetchW (fun _ => []) none = [oppW] := by
  with_unfolding_all rfl

/-- Helper: an opportunity returned by analyze passed the confidence gate and
the risk/reward gate, carries the symbol it was built for, and records the
fused confidence. -/
theorem analyze_gates {s : String} {d : StockData} {op : Opp}
    (h : analyze s d = some op) :
    60 ≤ op.confidence ∧ (3 : ℚ)/2 ≤ op.risk_reward ∧ op.symbol = s ∧
      op.confidence = (analyzeSignal d).2 := by
  unfold analyze at h
  split at h
  · exact Option.noConfusion h
  · rcases hsig : analyzeSignal d with ⟨sig, conf⟩
    rw [hsig] at h
    cases sig with
    | none => exact Option.noConfusion h
    | some dir =>
      have h2 : (if 60 ≤ conf then
          (if (3 : ℚ)/2 ≤ riskReward dir (effectivePrice d) (avgAtrFrac d) then
            some (mkOpportunity s d dir conf) else none) else none) = some op := h
      by_cases h60 : 60 ≤ conf
      · rw [if_pos h60] at h2
        by_cases hrr : (3 : ℚ)/2 ≤ riskReward dir (effectivePrice d) (avgAtrFrac d)
        · rw [if_pos hrr] at h2
          obtain rfl := Option.some.inj h2
          exact ⟨h60, hrr, rfl, rfl⟩
        · rw [if_neg hrr] at h2
          exact Option.noConfusion h2
      · rw [if_neg h60] at h2
        exact Option.noConfusion h2

/-- Helper: rejection when the fused confidence is below the threshold. -/
theorem analyze_low_conf (s : String) (d : StockData)
    (h : (analyzeSignal d).2 < 60) : analyze s d = none := by
  rcases ha : analyze s d with _ | op
  · rfl
  · obtain ⟨h60, -, -, hconf⟩ := analyze_gates ha
    rw [hconf] at h60
    omega

/-- Helper: the strict FV comparison is irreflexive, also at NaN. -/
theorem FV.blt_self (x : FV) : FV.blt x x = false := by
  cases x with
  | num q => simp [FV.blt]
  | nan => rfl
  | inf => rfl
  | ninf => rfl

/-- Helper: each gain term is nonnegative. -/
theorem gainAt_nonneg (closes : List ℚ) (t : ℕ) : 0 ≤ gainAt closes t := by
  unfold gainAt
  split
  · exact le_refl 0
  · split
    · exact le_of_lt (by assumption)
    · exact le_refl 0

/-- Helper: each loss term is nonnegative. -/
theorem lossAt_nonneg (closes : List ℚ) (t : ℕ) : 0 ≤ lossAt closes t := by
  unfold lossAt
  split
  · exact le_refl 0
  · split
    · have hlt : closes.getD t 0 - closes.getD (t - 1) 0 < 0 := by assumption
      linarith
    · exact le_refl 0

/-- Helper: the 14-bar average gain is nonnegative. -/
theorem avgGain_nonneg (closes : List ℚ) (i : ℕ) : 0 ≤ avgGain closes i := by
  unfold avgGain
  apply div_nonneg _ (by norm_num)
  apply List.sum_nonneg
  intro x hx
  obtain ⟨k, -, rfl⟩ := List.mem_map.mp hx
  exact gainAt_nonneg closes (i - 13 + k)

/-- Helper: the 14-bar average loss is nonnegative. -/
theorem avgLoss_nonneg (closes : List ℚ) (i : ℕ) : 0 ≤ avgLoss closes i := by
  unfold avgLoss
  apply div_nonneg _ (by norm_num)
  apply List.sum_nonneg
  intro x hx
  obtain ⟨k, -, rfl⟩ := List.mem_map.mp hx
  exact lossAt_nonneg closes (i - 13 + k)

/-- Helper: the default symbol list has no duplicates. -/
theorem default_symbols_nodup : DEFAULT_SYMBOLS.Nodup := by decide

/-- Helper: folding the append-if-new step of the default loop over a
duplicate-free list appends exactly the elements not already present, in
order. -/
theorem foldl_addNew (ys : List String) :
    ∀ xs : List String, ys.Nodup →
      ys.foldl (fun acc s => if s ∈ acc then acc else acc ++ [s]) xs
        = xs ++ ys.filter (fun s => decide (s ∉ xs)) := by
  induction ys with
  | nil => intro xs _; simp
  | cons y ys ih =>
    intro xs h
    obtain ⟨hy, hys⟩ := List.nodup_cons.mp h
    rw [List.foldl_cons, List.filter_cons]
    by_cases hmem : y ∈ xs
    · rw [if_pos hmem, ih xs hys]
      simp [hmem]
    · rw [if_neg hmem, ih (xs ++ [y]) hys]
      have hfc : ys.filter (fun s => decide (s ∉ xs ++ [y]))
          = ys.filter (fun s => decide (s ∉ xs)) := by
        apply List.filter_congr
        intro s hs
        have hsy : s ≠ y := fun hEq => hy (hEq ▸ hs)
        simp [List.mem_append, hsy]
      rw [hfc]
      simp [hmem, List.append_assoc]

/-- Helper: addDefaults appends exactly the missing default symbols. -/
theorem addDefaults_eq (xs : List String) :
    addDefaults xs = xs ++ DEFAULT_SYMBOLS.filter (fun s => decide (s ∉ xs)) :=
  foldl_addNew DEFAULT_SYMBOLS xs default_symbols_nodup

/-- Helper: the head of the confidence filter of a list sorted descending by
(confidence, risk/reward) has maximal confidence among the entries meeting
the threshold. -/
theorem head_filter_max (opps : List Opp) (m : ℕ) (op : Opp)
    (hp : List.Pairwise oppBefore opps)
    (h : (opps.filter (fun o => decide (m ≤ o.confidence))).head? = some op) :
    ∀ op2 ∈ opps, m ≤ op2.confidence → op2.confidence ≤ op.confidence := by
  induction opps with
  | nil => simp at h
  | cons a l ih =>
    rw [List.filter_cons] at h
    obtain ⟨hpa, hpl⟩ := List.pairwise_cons.mp hp
    by_cases ha : m ≤ a.confidence
    · rw [if_pos (decide_eq_true ha), List.head?_cons] at h
      obtain rfl : a = op := Option.some.inj h
      intro op2 hop2 hm2
      rcases List.mem_cons.mp hop2 with rfl | hop2
      · exact le_refl _
      · rcases hpa op2 hop2 with hlt | ⟨heq, -⟩
        · exact le_of_lt hlt
        · exact le_of_eq heq
    · rw [if_neg (by simp [ha])] at h
      intro op2 hop2 hm2
      rcases List.mem_cons.mp hop2 with rfl | hop2
      · exact absurd hm2 ha
      · exact ih hpl h op2 hop2 hm2

/-- Claim C1: every opportunity in the list returned by a scan pass satisfies
confidence at least 60 and risk/reward at least 1.5 — an opportunity is only
appended after the direction/confidence gate and the risk/reward gate. -/
theorem C1_scan_invariant (fetch : String → Option StockData)
    (watchlists : ℕ → List String) (userId : Option ℕ) (op : Opp)
    (h : op ∈ scan_for_opportunities fetch watchlists userId) :
    60 ≤ op.confidence ∧ (3 : ℚ)/2 ≤ op.risk_reward := by
  unfold scan_for_opportunities at h
  have h2 : op ∈ List.insertionSort oppBefore
      (collectOpportunities fetch (buildSymbols userId watchlists)) :=
    (List.take_sublist 10 _).subset h
  rw [List.mem_insertionSort] at h2
  obtain ⟨s, -, hbind⟩ := List.mem_filterMap.mp h2
  obtain ⟨d, -, ha⟩ := Option.bind_eq_some.mp hbind
  exact ⟨(analyze_gates ha).1, (analyze_gates ha).2.1⟩

/-- Witness for C1: a concrete scan whose single returned opportunity the
theorem applies to. -/
theorem C1_scan_invariant_witness :
    60 ≤ oppW.confidence ∧ (3 : ℚ)/2 ≤ oppW.risk_reward :=
  C1_scan_invariant fetchW (fun _ => []) none oppW
    (by rw [scanW_eq]; exact List.mem_singleton_self _)

/-- Claim C2: the scan result is sorted in descending order by the composite
key (confidence, risk/reward) — every earlier entry has either strictly
higher confidence or equal confidence and at least the risk/reward of every
later entry — and its length never exceeds 10. -/
theorem C2_ranking (fetch : String → Option StockData)
    (watchlists : ℕ → List String) (userId : Option ℕ) :
    (scan_for_opportunities fetch watchlists userId).length ≤ 10 ∧
      List.Pairwise oppBefore (scan_for_opportunities fetch watchlists userId) := by
  unfold scan_for_opportunities
  constructor
  · rw [List.length_take]
    exact min_le_left _ _
  · exact List.Pairwise.sublist (List.take_sublist _ _)
      (List.sorted_insertionSort oppBefore _)

/-- Claim C4: in primary signal fusion the confidence accumulates the weights
of all fired strategies of both directions, and the recorded direction is
SELL exactly when some SELL strategy fired (the SELL block runs after the
BUY block and overwrites it), BUY exactly when some BUY strategy fired and
no SELL strategy did; in particular when both a BUY and a SELL strategy
fire the direction is SELL and the confidence is the full sum. -/
theorem C4_fusion_direction_confidence (gc rb mc bb dc ro md bk : Bool) :
    (fusePrimary gc rb mc bb dc ro md bk).2
        = (if gc then 30 else 0) + (if rb then 25 else 0) + (if mc then 25 else 0)
          + (if bb then 20 else 0) + (if dc then 30 else 0) + (if ro then 25 else 0)
          + (if md then 25 else 0) + (if bk then 20 else 0) ∧
      (fusePrimary gc rb mc bb dc ro md bk).1
        = (if dc || ro || md || bk then some Dir.sell
           else if gc || rb || mc || bb then some Dir.buy
           else none) := by
  cases gc <;> cases rb <;> cases mc <;> cases bb <;>
    cases dc <;> cases ro <;> cases md <;> cases bk <;>
    exact ⟨rfl, rfl⟩

/-- Claim C7: per-symbol failure isolation — removing a symbol whose fetch
(or analysis, both modelled by the fetch returning none) fails does not
change the collected opportunities, and every collected opportunity comes
from a symbol whose fetch succeeded. -/
theorem C7_failure_isolation :
    (∀ (fetch : String → Option StockData) (xs ys : List String) (s : String),
        fetch s = none →
          collectOpportunities fetch (xs ++ s :: ys) = collectOpportunities fetch (xs ++ ys)) ∧
      (∀ (fetch : String → Option StockData) (symbols : List String) (op : Opp),
          op ∈ collectOpportunities fetch symbols → (fetch op.symbol).isSome = true) := by
  constructor
  · intro fetch xs ys s hs
    unfold collectOpportunities
    rw [List.filterMap_append, List.filterMap_append, List.filterMap_cons, hs]
    rfl
  · intro fetch symbols op hop
    obtain ⟨s, -, hbind⟩ := List.mem_filterMap.mp hop
    obtain ⟨d, hd, ha⟩ := Option.bind_eq_some.mp hbind
    rw [(analyze_gates ha).2.2.1, hd]
    rfl

/-- Witness for C7: a failing symbol is skipped in a concrete collection. -/
theorem C7_failure_isolation_witness :
    collectOpportunities (fun _ => none) ([] ++ "AAPL" :: []) =
      collectOpportunities (fun _ => none) ([] ++ []) :=
  C7_failure_isolation.1 (fun _ => none) [] [] "AAPL" rfl

/-- Claim C9: the golden-cross predicate uses strict inequalities on both
sides, so whenever either comparison is between equal values it does not
fire. -/
theorem C9_golden_cross_strict (pS20 pS50 cS20 cS50 : FV)
    (h : pS20 = pS50 ∨ cS20 = cS50) :
    golden_cross pS20 pS50 cS20 cS50 = false := by
  unfold golden_cross
  rcases h with rfl | rfl
  · rw [FV.blt_self, Bool.false_and]
  · rw [FV.blt_self, Bool.and_false]

/-- Witness for C9: equality on the previous bar never fires. -/
theorem C9_golden_cross_strict_witness :
    golden_cross (FV.num 100) (FV.num 100) (FV.num 102) (FV.num 101) = false :=
  C9_golden_cross_strict (FV.num 100) (FV.num 100) (FV.num 102) (FV.num 101) (Or.inl rfl)

/-- Claim C10: update_opportunities with a truthy user id returns that
user's scoped scan and leaves the global cache unchanged; a call without a
user id, or with the falsy id 0, overwrites the cache wholesale with the
fresh default-universe scan result and returns it. -/
theorem C10_update_frame (fetch : String → Option StockData)
    (watchlists : ℕ → List String) (cache : List Opp) :
    (∀ uid : ℕ, uid ≠ 0 →
        update_opportunities fetch watchlists cache (some uid)
          = (scan_for_opportunities fetch watchlists (some uid), cache)) ∧
      update_opportunities fetch watchlists cache none
        = (scan_for_opportunities fetch watchlists none,
           scan_for_opportunities fetch watchlists none) ∧
      update_opportunities fetch watchlists cache (some 0)
        = (scan_for_opportunities fetch watchlists none,
           scan_for_opportunities fetch watchlists none) := by
  refine ⟨fun uid h => ?_, rfl, rfl⟩
  show (if uid ≠ 0 then (scan_for_opportunities fetch watchlists (some uid), cache)
      else (scan_for_opportunities fetch watchlists none,
            scan_for_opportunities fetch watchlists none))
    = (scan_for_opportunities fetch watchlists (some uid), cache)
  rw [if_pos h]

/-- Witness for C10: a concrete scoped call leaves a nonempty cache alone. -/
theorem C10_update_frame_witness :
    update_opportunities (fun _ => none) (fun _ => []) [dummyOpp] (some 7)
      = (scan_for_opportunities (fun _ => none) (fun _ => []) (some 7), [dummyOpp]) :=
  (C10_update_frame (fun _ => none) (fun _ => []) [dummyOpp]).1 7 (by decide)

/-- Helper: case analysis of the RSI value at a bar whose window is
populated: 0/0 gives NaN, positive gain over zero loss gives exactly 100
through the infinity, and a positive loss gives the finite formula. -/
theorem rsiAt_eval (closes : List ℚ) (i : ℕ) (hv : 13 ≤ i ∧ i < closes.length) :
    (avgLoss closes i = 0 ∧ avgGain closes i = 0 ∧ rsiAt closes i = FV.nan) ∨
      (avgLoss closes i = 0 ∧ 0 < avgGain closes i ∧ rsiAt closes i = FV.num 100) ∨
      (0 < avgLoss closes i ∧
        rsiAt closes i
          = FV.num (100 - 100 / (1 + avgGain closes i / avgLoss closes i))) := by
  have hg := avgGain_nonneg closes i
  have hl := avgLoss_nonneg closes i
  unfold rsiAt
  rw [if_pos hv]
  by_cases hlz : avgLoss closes i = 0
  · by_cases hgz : avgGain closes i = 0
    · left
      refine ⟨hlz, hgz, ?_⟩
      rw [hlz, hgz]
      simp [FV.div, FV.add, FV.sub]
    · right; left
      have hgpos : 0 < avgGain closes i := lt_of_le_of_ne hg (Ne.symm hgz)
      refine ⟨hlz, hgpos, ?_⟩
      rw [hlz]
      simp [FV.div, FV.add, FV.sub, hgz, hgpos]
  · right; right
    have hlpos : 0 < avgLoss closes i := lt_of_le_of_ne hl (Ne.symm hlz)
    have hgl : 0 ≤ avgGain closes i / avgLoss closes i := div_nonneg hg hl
    have h1 : (0 : ℚ) < 1 + avgGain closes i / avgLoss closes i := by linarith
    refine ⟨hlpos, ?_⟩
    rw [show FV.div (FV.num (avgGain closes i)) (FV.num (avgLoss closes i))
        = FV.num (avgGain closes i / avgLoss closes i) from by simp [FV.div, hlz]]
    rw [show FV.add (FV.num 1) (FV.num (avgGain closes i / avgLoss closes i))
        = FV.num (1 + avgGain closes i / avgLoss closes i) from rfl]
    rw [show FV.div (FV.num 100) (FV.num (1 + avgGain closes i / avgLoss closes i))
        = FV.num (100 / (1 + avgGain closes i / avgLoss closes i)) from by
      simp [FV.div, ne_of_gt h1]]
    rfl

/-- Claim C3 (amended): where the RSI is a number it lies in the interval
from 0 to 100, and it equals exactly 100 precisely at populated bars with
zero 14-bar average loss and positive average gain; the zero-loss case with
zero gain instead yields NaN (see the counterexample), because the source
relies on float division rather than an explicit branch. -/
theorem C3_rsi_range_and_100 :
    (∀ (closes : List ℚ) (i : ℕ) (q : ℚ),
        rsiAt closes i = FV.num q → 0 ≤ q ∧ q ≤ 100) ∧
      (∀ (closes : List ℚ) (i : ℕ),
          rsiAt closes i = FV.num 100 ↔
            (13 ≤ i ∧ i < closes.length ∧ avgLoss closes i = 0 ∧
              0 < avgGain closes i)) := by
  constructor
  · intro closes i q h
    by_cases hv : 13 ≤ i ∧ i < closes.length
    · rcases rsiAt_eval closes i hv with ⟨-, -, h3⟩ | ⟨-, -, h3⟩ | ⟨hlpos, h3⟩
      · rw [h3] at h
        exact FV.noConfusion h
      · rw [h3] at h
        obtain rfl : (100 : ℚ) = q := FV.num.inj h
        norm_num
      · rw [h3] at h
        obtain rfl := FV.num.inj h
        have hg := avgGain_nonneg closes i
        have hl := avgLoss_nonneg closes i
        have hgl : 0 ≤ avgGain closes i / avgLoss closes i := div_nonneg hg hl
        have h1 : (0 : ℚ) < 1 + avgGain closes i / avgLoss closes i := by linarith
        have hup : 100 / (1 + avgGain closes i / avgLoss closes i) ≤ 100 :=
          div_le_self (by norm_num) (by linarith)
        have hpos : 0 < 100 / (1 + avgGain closes i / avgLoss closes i) :=
          div_pos (by norm_num) h1
        constructor <;> linarith
    · unfold rsiAt at h
      rw [if_neg hv] at h
      exact FV.noConfusion h
  · intro closes i
    constructor
    · intro h
      by_cases hv : 13 ≤ i ∧ i < closes.length
      · rcases rsiAt_eval closes i hv with ⟨-, -, h3⟩ | ⟨hlz, hgp, h3⟩ | ⟨hlpos, h3⟩
        · rw [h3] at h
          exact FV.noConfusion h
        · exact ⟨hv.1, hv.2, hlz, hgp⟩
        · rw [h3] at h
          have heq := FV.num.inj h
          have hg := avgGain_nonneg closes i
          have hl := avgLoss_nonneg closes i
          have hgl : 0 ≤ avgGain closes i / avgLoss closes i := div_nonneg hg hl
          have h1 : (0 : ℚ) < 1 + avgGain closes i / avgLoss closes i := by linarith
          have hpos : 0 < 100 / (1 + avgGain closes i / avgLoss closes i) :=
            div_pos (by norm_num) h1
          linarith
      · unfold rsiAt at h
        rw [if_neg hv] at h
        exact FV.noConfusion h
    · rintro ⟨h1, h2, h3, h4⟩
      rcases rsiAt_eval closes i ⟨h1, h2⟩ with ⟨-, hgz, -⟩ | ⟨-, -, h5⟩ | ⟨hlpos, -⟩
      · exact absurd hgz (ne_of_gt h4)
      · exact h5
      · exact absurd h3 (ne_of_gt hlpos)

/-- Counterexample for C3: on a flat series both 14-bar averages are zero and
the RSI is NaN — the division 0/0 is a numeric fault, not an explicitly
handled case. -/
theorem C3_rsi_nan_counterexample :
    avgLoss (List.replicate 20 (50 : ℚ)) 19 = 0 ∧
      avgGain (List.replicate 20 (50 : ℚ)) 19 = 0 ∧
      rsiAt (List.replicate 20 (50 : ℚ)) 19 = FV.nan := by
  refine ⟨?_, ?_, ?_⟩ <;> with_unfolding_all rfl

/-- Witness for C3: a concrete series with a finite RSI inside the range. -/
theorem C3_rsi_range_witness :
    rsiAt closesC3 14 = FV.num (200/3) ∧ (0 : ℚ) ≤ 200/3 ∧ (200/3 : ℚ) ≤ 100 :=
  ⟨by with_unfolding_all rfl,
   (C3_rsi_range_and_100.1 closesC3 14 (200/3) (by with_unfolding_all rfl)).1,
   (C3_rsi_range_and_100.1 closesC3 14 (200/3) (by with_unfolding_all rfl)).2⟩

/-- Claim C5 (amended): when the golden cross fires and no other primary
strategy does, the fused direction is BUY but the confidence is at least 40
and never 30, because the cross entails the SMA20-above-SMA50 uptrend
confirmation worth another 10; whenever that confidence stays below 60 the
symbol is rejected and produces no opportunity. -/
theorem C5_golden_cross_only (s : String) (d : StockData)
    (hgc : goldenCrossB d = true) (hrb : rsiBounceB d = false)
    (hmc : macdCrossB d = false) (hbb : bbBounceB d = false)
    (hdc : deathCrossB d = false) (hro : rsiOverboughtB d = false)
    (hmd : macdCrossDownB d = false) (hbk : bbBreakoutHighRsiB d = false) :
    (analyzeSignal d).1 = some Dir.buy ∧ 40 ≤ (analyzeSignal d).2 ∧
      (analyzeSignal d).2 ≠ 30 ∧
      ((analyzeSignal d).2 < 60 → analyze s d = none) := by
  have hup : sma20AboveSma50B d = true := by
    unfold goldenCrossB golden_cross at hgc
    rw [Bool.and_eq_true] at hgc
    exact hgc.2
  have hfp : fusedPrimary d = (some Dir.buy, 30) := by
    unfold fusedPrimary
    rw [hgc, hrb, hmc, hbb, hdc, hro, hmd, hbk]
    rfl
  have hsig : analyzeSignal d
      = (some Dir.buy, addConfirmations (some Dir.buy) 30 (closeAboveSma20B d)
          (sma20AboveSma50B d) (volumeHighB d) (closeBelowSma20B d)
          (sma20BelowSma50B d)) := by
    unfold analyzeSignal
    rw [hfp]
  have hconf : (analyzeSignal d).2
      = 30 + (if closeAboveSma20B d then 10 else 0) + 10
        + (if volumeHighB d then 15 else 0) := by
    rw [hsig]
    unfold addConfirmations
    rw [hup]
    simp
  refine ⟨by rw [hsig], ?_, ?_, fun hlow => analyze_low_conf s d hlow⟩
  · rw [hconf]
    split <;> split <;> omega
  · rw [hconf]
    split <;> split <;> omega

/-- Counterexample for C5: on the concrete 120-bar series only the golden
cross fires, yet the fused confidence is 40, not the claimed 30 (the
entailed uptrend confirmation adds 10); the symbol is still rejected since
40 is below 60. -/
theorem C5_confidence_40_counterexample :
    closes120.length = 120 ∧
      goldenCrossB dataC5 = true ∧ rsiBounceB dataC5 = false ∧
      macdCrossB dataC5 = false ∧ bbBounceB dataC5 = false ∧
      deathCrossB dataC5 = false ∧ rsiOverboughtB dataC5 = false ∧
      macdCrossDownB dataC5 = false ∧ bbBreakoutHighRsiB dataC5 = false ∧
      analyzeSignal dataC5 = (some Dir.buy, 40) ∧
      (analyzeSignal dataC5).2 ≠ 30 ∧
      analyze "AAPL" dataC5 = none := by
  refine ⟨by with_unfolding_all rfl, by with_unfolding_all rfl, by with_unfolding_all rfl,
    by with_unfolding_all rfl, by with_unfolding_all rfl, by with_unfolding_all rfl,
    by with_unfolding_all rfl, by with_unfolding_all rfl, by with_unfolding_all rfl,
    by with_unfolding_all rfl, by with_unfolding_all decide, by with_unfolding_all rfl⟩

/-- Witness for C5: the amended theorem applied to the 120-bar series. -/
theorem C5_golden_cross_only_witness :
    (analyzeSignal dataC5).1 = some Dir.buy ∧ 40 ≤ (analyzeSignal dataC5).2 ∧
      (analyzeSignal dataC5).2 ≠ 30 ∧
      ((analyzeSignal dataC5).2 < 60 → analyze "AAPL" dataC5 = none) :=
  C5_golden_cross_only "AAPL" dataC5 (by with_unfolding_all rfl)
    (by with_unfolding_all rfl) (by with_unfolding_all rfl) (by with_unfolding_all rfl)
    (by with_unfolding_all rfl) (by with_unfolding_all rfl) (by with_unfolding_all rfl)
    (by with_unfolding_all rfl)

/-- Claim C6 (amended): for a truthy user with a nonempty watchlist of fewer
than 50 symbols, the scanned universe is the watchlist followed by every
default symbol not already present, in order; the 50-symbol threshold of the
source stops the default append for larger watchlists (see the
counterexample). -/
theorem C6_universe_amended (uid : ℕ) (wl : ℕ → List String)
    (h0 : uid ≠ 0) (h1 : wl uid ≠ []) (h2 : (wl uid).length < 50) :
    buildSymbols (some uid) wl
      = wl uid ++ DEFAULT_SYMBOLS.filter (fun s => decide (s ∉ wl uid)) := by
  have hw : watchPart (some uid) wl = wl uid := by
    show (if uid ≠ 0 ∧ wl uid ≠ [] then wl uid else []) = wl uid
    rw [if_pos ⟨h0, h1⟩]
  unfold buildSymbols
  rw [hw, if_pos (Or.inl h2)]
  exact addDefaults_eq (wl uid)

/-- Concrete single-entry watchlist function for the C6 witness. -/
def wlW : ℕ → List String := fun n => if n = 1 then ["ZZZ"] else []

/-- Witness for C6: the amended construction on a one-symbol watchlist. -/
theorem C6_universe_amended_witness :
    buildSymbols (some 1) wlW
      = wlW 1 ++ DEFAULT_SYMBOLS.filter (fun s => decide (s ∉ wlW 1)) :=
  C6_universe_amended 1 wlW (by decide) (by decide) (by decide)

/-- Counterexample for C6: a 50-symbol watchlist is taken as the whole
universe — the default symbols are not appended, so AAPL (a default symbol
absent from the watchlist) is never scanned. -/
theorem C6_threshold_counterexample :
    buildSymbols (some 1) (fun _ => watchlist50) = watchlist50 ∧
      "AAPL" ∈ DEFAULT_SYMBOLS ∧
      "AAPL" ∉ buildSymbols (some 1) (fun _ => watchlist50) := by
  exact ⟨by decide, by decide, by decide⟩

/-- Claim C8: in a broadcast pass a subscriber with alerts disabled gets
nothing; an enabled subscriber gets nothing when no opportunity reaches
their minimum confidence, and otherwise gets an opportunity from the shared
list meeting the threshold that has maximal confidence among those meeting
it (the first of the descending-sorted list); the stored minimum-risk-reward
preference never influences the selection. -/
theorem C8_broadcast_filtering :
    (∀ (opps : List Opp) (p : Prefs), p.daily_alerts = false →
        broadcast_selection opps (some p) = none) ∧
      (∀ (opps : List Opp) (p : Prefs),
          (∀ op ∈ opps, op.confidence < p.min_confidence) →
            broadcast_selection opps (some p) = none) ∧
      (∀ (opps : List Opp) (p : Prefs) (op : Opp), p.daily_alerts = true →
          broadcast_selection opps (some p) = some op →
            op ∈ opps ∧ p.min_confidence ≤ op.confidence ∧
              (List.Pairwise oppBefore opps →
                ∀ op2 ∈ opps, p.min_confidence ≤ op2.confidence →
                  op2.confidence ≤ op.confidence)) ∧
      (∀ (opps : List Opp) (p : Prefs) (q : ℚ),
          broadcast_selection opps
              (some { daily_alerts := p.daily_alerts,
                      min_confidence := p.min_confidence, min_risk_reward := q })
            = broadcast_selection opps (some p)) := by
  refine ⟨fun opps p h => ?_, fun opps p h => ?_, fun opps p op hd h => ?_,
    fun opps p q => rfl⟩
  · simp only [broadcast_selection]
    rw [if_pos h]
  · simp only [broadcast_selection]
    split
    · rfl
    · rw [List.head?_eq_none_iff, List.filter_eq_nil_iff]
      exact fun a ha => by simpa using Nat.not_le.mpr (h a ha)
  · simp only [broadcast_selection] at h
    rw [if_neg (by simp [hd])] at h
    obtain ⟨t, ht⟩ := List.head?_eq_some_iff.mp h
    have hmem : op ∈ opps.filter (fun o => decide (p.min_confidence ≤ o.confidence)) := by
      rw [ht]
      exact List.mem_cons_self op t
    obtain ⟨hmemo, hc⟩ := List.mem_filter.mp hmem
    refine ⟨hmemo, by simpa using hc, fun hp => head_filter_max opps p.min_confidence op hp h⟩

/-- Preferences with alerts disabled. -/
def prefsOff : Prefs :=
  { daily_alerts := false, min_confidence := 60, min_risk_reward := 3/2 }

/-- Preferences with alerts enabled and minimum confidence 80. -/
def prefs80 : Prefs :=
  { daily_alerts := true, min_confidence := 80, min_risk_reward := 3/2 }

/-- Witness for C8: a disabled subscriber gets nothing, and a subscriber
with minimum confidence 80 gets nothing when the only opportunity has
confidence 65. -/
theorem C8_broadcast_filtering_witness :
    broadcast_selection [opp65] (some prefsOff) = none ∧
      broadcast_selection [opp65] (some prefs80) = none :=
  ⟨C8_broadcast_filtering.1 [opp65] prefsOff rfl,
   C8_broadcast_filtering.2.1 [opp65] prefs80 (by decide)⟩
